import Mathlib

/-!
Verification of the Frontline presage-engine service (`src/presage-engine/main.cpp`)
and the CLI tool (`src/presage-engine/hello_vitals.cpp`) against its
natural-language specification.

The embedding models the server's shared mutable state (`camera_running`,
`all_vitals_readings`, `latest_vitals`, `video_file_path`), the SDK metrics
callback registered in `run_camera_test`, the aggregation function
`calculate_vitals_summary`, and the HTTP handlers for `POST /process-video`,
`POST /upload`, `GET /test` and `GET /live`.  Engine rates (C++ `float`) are
modelled as rationals; JSON objects are modelled as association lists of a
small JSON value type.  Environmental effects (file-write success, camera
device presence, engine initialization success, the sequence of metric
callbacks delivered by the engine) are explicit parameters.
-/

namespace PresageEngine

/-- A JSON value, as built by the handlers via nlohmann::json literals. -/
inductive JVal where
  | jstr : String → JVal
  | jnum : ℚ → JVal
  | jint : Int → JVal
  | jbool : Bool → JVal
  | jnull : JVal
  | jobj : List (String × JVal) → JVal
  | jarr : List JVal → JVal

/-- A JSON object body: the top-level key/value pairs the handler inserts. -/
abbrev JBody := List (String × JVal)

/-- Field lookup in a JSON object body. -/
def getField (b : JBody) (k : String) : Option JVal :=
  List.lookup k b

/-- One reading stored by the metrics callback in `main.cpp` (the `json reading`):
`timestamp_ms` and `source` are set unconditionally; each rate field is set only
when the corresponding engine channel is non-empty. -/
structure Sample where
  timestamp_ms : Int
  source : String
  heart_rate_bpm : Option ℚ
  breathing_rate_bpm : Option ℚ
deriving Repr, DecidableEq

/-- The server's shared mutable state (main.cpp globals):
`camera_running`, `all_vitals_readings`, `latest_vitals` (the json slot, `none`
when the json is empty), and `video_file_path`. -/
structure ServerState where
  camera_running : Bool
  all_vitals_readings : List Sample
  latest_vitals : Option Sample
  video_file_path : String
deriving Repr, DecidableEq

/-- Process-start state: flags false, no readings, empty latest json, no video path. -/
def initialState : ServerState :=
  { camera_running := false
    all_vitals_readings := []
    latest_vitals := none
    video_file_path := "" }

/-- One invocation of the engine's core-metrics callback: the contents of the
pulse rate channel, the breathing rate channel, and the timestamp argument. -/
structure CbEvent where
  pulse : List ℚ
  breathing : List ℚ
  timestamp : Int
deriving Repr, DecidableEq

/-- The `json reading` built by the `SetOnCoreMetricsOutput` lambda in
`run_camera_test` (main.cpp lines 188-216): timestamp and source tag always;
`heart_rate_bpm` is `metrics.pulse().rate().rbegin()->value()` (the last
element) when that channel is non-empty, and absent otherwise; likewise
`breathing_rate_bpm`. -/
def metricsCallbackSample (pulse breathing : List ℚ) (timestamp : Int) : Sample :=
  { timestamp_ms := timestamp
    source := "presage_sdk"
    heart_rate_bpm := pulse.getLast?
    breathing_rate_bpm := breathing.getLast? }

/-- State effect of one invocation of the `SetOnCoreMetricsOutput` lambda:
the reading is pushed onto `all_vitals_readings` unconditionally, and the
`latest_vitals` slot is overwritten with it. -/
def onCoreMetricsOutput (st : ServerState) (pulse breathing : List ℚ)
    (timestamp : Int) : ServerState :=
  let reading := metricsCallbackSample pulse breathing timestamp
  { st with
    all_vitals_readings := st.all_vitals_readings ++ [reading]
    latest_vitals := some reading }

/-- Per-channel statistics produced by the `calc_stats` lambda. -/
structure ChannelStats where
  avg : ℚ
  min : ℚ
  max : ℚ
  count : Nat
deriving Repr, DecidableEq

/-- The `calc_stats` lambda in `calculate_vitals_summary` (main.cpp lines 76-97):
empty input yields the empty JSON object (modelled `none`); otherwise one pass
accumulating `sum` from 0, `min_val`/`max_val` from `values[0]`, and
`avg = sum / values.size()`. -/
def calc_stats : List ℚ → Option ChannelStats
  | [] => none
  | v :: vs =>
    some
      { avg := ((v :: vs).foldl (· + ·) 0) / ((v :: vs).length : ℚ)
        min := (v :: vs).foldl Min.min v
        max := (v :: vs).foldl Max.max v
        count := (v :: vs).length }

/-- The heart-rate values extracted from the readings (main.cpp lines 66-69):
each reading contributes its `heart_rate_bpm` when the field is present,
in reading order. -/
def heartRates (readings : List Sample) : List ℚ :=
  readings.filterMap (·.heart_rate_bpm)

/-- The breathing-rate values extracted from the readings (main.cpp lines 70-72). -/
def breathingRates (readings : List Sample) : List ℚ :=
  readings.filterMap (·.breathing_rate_bpm)

/-- The non-empty case of the summary object built by
`calculate_vitals_summary` (main.cpp lines 99-104). -/
structure VitalsSummary where
  heart_rate : Option ChannelStats
  breathing_rate : Option ChannelStats
  readings_count : Nat
  all_readings : List Sample
deriving Repr, DecidableEq

/-- `calculate_vitals_summary` (main.cpp lines 55-107): with no readings it
returns the bare empty JSON object (modelled `none`); otherwise an object with
per-channel stats over the present values, `readings_count`, and the verbatim
reading list. -/
def calculate_vitals_summary (readings : List Sample) : Option VitalsSummary :=
  if readings.isEmpty then
    none
  else
    some
      { heart_rate := calc_stats (heartRates readings)
        breathing_rate := calc_stats (breathingRates readings)
        readings_count := readings.length
        all_readings := readings }

/-- JSON form of a per-channel stats object (`calc_stats` return value). -/
def statsJson : Option ChannelStats → JVal
  | none => .jobj []
  | some st =>
    .jobj [("avg", .jnum st.avg), ("min", .jnum st.min), ("max", .jnum st.max),
           ("count", .jint (st.count : Int))]

/-- JSON form of one stored reading, with the conditional rate fields. -/
def sampleJson (s : Sample) : JBody :=
  [("timestamp_ms", .jint s.timestamp_ms), ("source", .jstr s.source)]
    ++ (match s.heart_rate_bpm with
        | some q => [("heart_rate_bpm", JVal.jnum q)]
        | none => [])
    ++ (match s.breathing_rate_bpm with
        | some q => [("breathing_rate_bpm", JVal.jnum q)]
        | none => [])

/-- JSON form of the summary object. -/
def summaryJson (v : VitalsSummary) : JVal :=
  .jobj [("heart_rate", statsJson v.heart_rate),
         ("breathing_rate", statsJson v.breathing_rate),
         ("readings_count", .jint (v.readings_count : Int)),
         ("all_readings", .jarr (v.all_readings.map (fun s => JVal.jobj (sampleJson s))))]

/-- An HTTP response: status code and top-level JSON object body. -/
structure HttpResponse where
  status : Nat
  body : JBody

/-- `run_camera_test` after clearing previous readings (main.cpp lines 131-135):
only `all_vitals_readings` is cleared; the `latest_vitals` slot is untouched. -/
def run_camera_test_cleared (st : ServerState) : ServerState :=
  { st with all_vitals_readings := [] }

/-- `run_camera_test` at the Running transition (main.cpp line 152,
`camera_running = true`), reached after the clear; no engine callback has
fired yet at this point (the container is created only afterwards). -/
def run_camera_test_running (st : ServerState) : ServerState :=
  { run_camera_test_cleared st with camera_running := true }

/-- `run_camera_test` in the SDK build (main.cpp lines 130-268).
`cameraPresent` models `check_camera_device()`; `engineOk` models the
`SetOnCoreMetricsOutput` / `Initialize` status checks (on failure the function
sets `camera_running = false` and returns before any callback); `events` is
the sequence of core-metrics callback invocations delivered during `Run`.
On the early-return path (no video file and no camera) readings stay cleared
and `camera_running` is never set. -/
def run_camera_test (st : ServerState) (cameraPresent engineOk : Bool)
    (events : List CbEvent) : ServerState :=
  let st1 := run_camera_test_cleared st
  let use_video_file := st1.video_file_path ≠ ""
  if ¬use_video_file ∧ ¬cameraPresent then
    st1
  else
    let st2 := run_camera_test_running st
    if ¬engineOk then
      { st2 with camera_running := false }
    else
      let st3 := events.foldl
        (fun s e => onCoreMetricsOutput s e.pulse e.breathing e.timestamp) st2
      { st3 with camera_running := false }

/-- The upload file name `"video_" + std::to_string(std::time(nullptr)) + ".mp4"`. -/
def uploadFilename (now : Int) : String :=
  "video_" ++ toString now ++ ".mp4"

/-- The upload file path under `/app/uploads`. -/
def uploadFilepath (now : Int) : String :=
  "/app/uploads/" ++ uploadFilename now

/-- The `POST /process-video` handler (main.cpp lines 365-459), as a function
from the pre-state and request body to the response and post-state.
`now` is `std::time(nullptr)`; `writeOk` models whether the `std::ofstream`
opened; `cameraPresent`, `engineOk`, `events` parameterize `run_camera_test`.
Branches in source order: 409 when `camera_running`; 400 when the body is
empty; 500 when the file cannot be saved; otherwise clear readings, set
`video_file_path`, run synchronously, and return 500 (no data) when the
summary is the empty object or has `readings_count == 0`, else 200. -/
def process_video (st : ServerState) (body : String) (now : Int)
    (writeOk cameraPresent engineOk : Bool) (events : List CbEvent) :
    HttpResponse × ServerState :=
  if st.camera_running then
    (⟨409, [("error", .jstr "Processing already in progress. Wait for current processing to complete.")]⟩,
     st)
  else if body.isEmpty then
    (⟨400, [("error", .jstr "No video file provided"),
            ("hint", .jstr "Send video file as raw binary data in POST body, or use multipart/form-data")]⟩,
     st)
  else if ¬writeOk then
    (⟨500, [("error", .jstr "Failed to save uploaded file")]⟩, st)
  else
    let st1 := { st with all_vitals_readings := [] }
    let st2 := { st1 with video_file_path := uploadFilepath now }
    let st3 := run_camera_test st2 cameraPresent engineOk events
    match calculate_vitals_summary st3.all_vitals_readings with
    | none =>
      (⟨500, [("success", .jbool false),
              ("error", .jstr "No vitals data extracted from video"),
              ("message", .jstr "Presage SDK did not return any vital sign readings. Check video quality and ensure face is visible."),
              ("video_file", .jstr (uploadFilename now))]⟩,
       st3)
    | some summary =>
      if summary.readings_count = 0 then
        (⟨500, [("success", .jbool false),
                ("error", .jstr "No vitals data extracted from video"),
                ("message", .jstr "Presage SDK did not return any vital sign readings. Check video quality and ensure face is visible."),
                ("video_file", .jstr (uploadFilename now))]⟩,
         st3)
      else
        (⟨200, [("success", .jbool true),
                ("video_file", .jstr (uploadFilename now)),
                ("vitals", summaryJson summary),
                ("processing_complete", .jbool true),
                ("data_source", .jstr "presage_sdk"),
                ("note", .jstr "Vitals extracted using Presage SmartSpectra SDK")]⟩,
         st3)

/-- The `POST /upload` handler (main.cpp lines 462-515): 409 when busy,
otherwise save the body (400 when empty, 500 when the file cannot be opened)
and record the new `video_file_path`. -/
def upload (st : ServerState) (body : String) (now : Int) (writeOk : Bool) :
    HttpResponse × ServerState :=
  if st.camera_running then
    (⟨409, [("error", .jstr "Processing already running. Wait for it to complete.")]⟩, st)
  else if ¬body.isEmpty then
    if ¬writeOk then
      (⟨500, [("error", .jstr "Failed to save uploaded file")]⟩, st)
    else
      (⟨200, [("message", .jstr "Video file uploaded successfully"),
              ("filename", .jstr (uploadFilename now)),
              ("path", .jstr (uploadFilepath now)),
              ("size_bytes", .jint (body.length : Int))]⟩,
       { st with video_file_path := uploadFilepath now })
  else
    (⟨400, [("error", .jstr "No video file provided"),
            ("hint", .jstr "Send video file as raw binary data in POST body")]⟩,
     st)

/-- The `GET /test` handler's immediate effect (main.cpp lines 518-553):
409 when busy; otherwise it detaches `run_camera_test` onto a background
thread and returns at once, so the state visible to this request is unchanged. -/
def test_handler (st : ServerState) : HttpResponse × ServerState :=
  if st.camera_running then
    (⟨409, [("error", .jstr "Processing already running")]⟩, st)
  else
    let usingVideo := st.video_file_path ≠ ""
    let message :=
      if usingVideo then "Video file processing started. Processing entire video."
      else "Camera test started. Will run for 10 seconds."
    (⟨200, [("message", .jstr message),
            ("check_console", .jstr "Vital signs will be printed to console/stdout"),
            ("using_video_file", .jbool usingVideo)]⟩,
     st)

/-- The `GET /live` handler (main.cpp lines 556-568): the placeholder message
when `latest_vitals` is empty, otherwise the latest reading verbatim. -/
def live_handler (st : ServerState) : HttpResponse :=
  match st.latest_vitals with
  | none =>
    ⟨200, [("message", .jstr "No vitals data available yet"),
           ("suggestion", .jstr "Call /test first to collect data")]⟩
  | some s => ⟨200, sampleJson s⟩

/-- The CLI metrics callback in `hello_vitals.cpp` (lines 81-98): the
`Vitals - Pulse: <x> BPM, Breathing: <y> BPM` line is printed exactly when
both channels are non-empty, with `<x>`/`<y>` the last value of each channel
(`rate().rbegin()->value()`); `none` means no line is printed. -/
def helloVitalsLine (pulse breathing : List ℚ) : Option (ℚ × ℚ) :=
  if ¬pulse.isEmpty ∧ ¬breathing.isEmpty then
    some (pulse.getLast!, breathing.getLast!)
  else
    none

/-! ### Interleaving model for the busy check

A start request (`POST /process-video` or `GET /test`) interacts with the
shared flag `camera_running` in two separate steps: it first executes
`camera_running.load()` at handler entry (main.cpp lines 367, 520) and
responds 409 if the flag is true, and only later — inside `run_camera_test` —
executes `camera_running = true` (main.cpp line 152).  No lock is held across
the two steps.  The model below runs two such requests under an explicit
schedule of atomic steps on the shared flag. -/

/-- Where one start request stands with respect to the shared flag:
about to execute the busy check; past the check (observed false) but not yet
at `camera_running = true`; having set the flag (entered Running); or having
responded 409. -/
inductive Phase where
  | atCheck
  | passedCheck
  | running
  | rejected
deriving Repr, DecidableEq

/-- One atomic step of a request against the shared flag: the busy check
reads the flag; the Running transition writes true. Returns the new phase and
the new flag value. -/
def phaseStep (flag : Bool) : Phase → Phase × Bool
  | .atCheck => if flag then (.rejected, flag) else (.passedCheck, flag)
  | .passedCheck => (.running, true)
  | .running => (.running, flag)
  | .rejected => (.rejected, flag)

/-- Two concurrent start requests `a` and `b` sharing `camera_running`. -/
structure TwoRequests where
  flag : Bool
  a : Phase
  b : Phase
deriving Repr, DecidableEq

/-- Let the scheduled request (true = `a`, false = `b`) take its next atomic
step. -/
def schedStep (s : TwoRequests) (who : Bool) : TwoRequests :=
  if who then
    let (p, f) := phaseStep s.flag s.a
    { s with a := p, flag := f }
  else
    let (p, f) := phaseStep s.flag s.b
    { s with b := p, flag := f }

/-- Run a schedule of atomic steps. -/
def runSched (s : TwoRequests) : List Bool → TwoRequests
  | [] => s
  | w :: ws => runSched (schedStep s w) ws

/-- Both requests poised at the busy check with no session running. -/
def initTwoRequests : TwoRequests :=
  { flag := false, a := .atCheck, b := .atCheck }

/-! ### Helper lemmas about the single-pass fold accumulators -/

lemma foldl_min_le_init (l : List ℚ) (a : ℚ) : l.foldl Min.min a ≤ a := by
  induction l generalizing a with
  | nil => exact le_refl a
  | cons b t ih => exact le_trans (ih (Min.min a b)) (min_le_left a b)

lemma foldl_min_le_of_mem (l : List ℚ) (a x : ℚ) (hx : x ∈ l) :
    l.foldl Min.min a ≤ x := by
  induction l generalizing a with
  | nil => cases hx
  | cons b t ih =>
    rcases List.mem_cons.mp hx with h | h
    · subst h
      exact le_trans (foldl_min_le_init t (Min.min a x)) (min_le_right a x)
    · exact ih (Min.min a b) h

lemma foldl_min_eq_init_or_mem (l : List ℚ) (a : ℚ) :
    l.foldl Min.min a = a ∨ l.foldl Min.min a ∈ l := by
  induction l generalizing a with
  | nil => exact Or.inl rfl
  | cons b t ih =>
    rcases ih (Min.min a b) with h | h
    · rcases min_choice a b with hm | hm
      · exact Or.inl (by rw [List.foldl_cons, h, hm])
      · exact Or.inr (by rw [List.foldl_cons, h, hm]; exact List.mem_cons_self b t)
    · exact Or.inr (List.mem_cons_of_mem b h)

lemma init_le_foldl_max (l : List ℚ) (a : ℚ) : a ≤ l.foldl Max.max a := by
  induction l generalizing a with
  | nil => exact le_refl a
  | cons b t ih => exact le_trans (le_max_left a b) (ih (Max.max a b))

lemma mem_le_foldl_max (l : List ℚ) (a x : ℚ) (hx : x ∈ l) :
    x ≤ l.foldl Max.max a := by
  induction l generalizing a with
  | nil => cases hx
  | cons b t ih =>
    rcases List.mem_cons.mp hx with h | h
    · subst h
      exact le_trans (le_max_right a x) (init_le_foldl_max t (Max.max a x))
    · exact ih (Max.max a b) h

lemma foldl_max_eq_init_or_mem (l : List ℚ) (a : ℚ) :
    l.foldl Max.max a = a ∨ l.foldl Max.max a ∈ l := by
  induction l generalizing a with
  | nil => exact Or.inl rfl
  | cons b t ih =>
    rcases ih (Max.max a b) with h | h
    · rcases max_choice a b with hm | hm
      · exact Or.inl (by rw [List.foldl_cons, h, hm])
      · exact Or.inr (by rw [List.foldl_cons, h, hm]; exact List.mem_cons_self b t)
    · exact Or.inr (List.mem_cons_of_mem b h)

lemma foldl_add_eq_sum (l : List ℚ) (c : ℚ) : l.foldl (· + ·) c = c + l.sum := by
  induction l generalizing c with
  | nil => simp
  | cons b t ih => rw [List.foldl_cons, ih (c + b), List.sum_cons]; ring

/-- What the specification asserts of one channel's statistics object:
the empty object exactly for an empty channel, and otherwise count = number of
present values, `avg = sum / count`, `min`/`max` attained bounds of the values,
and `min ≤ avg ≤ max`. -/
def specChannelStats (l : List ℚ) : Option ChannelStats → Prop
  | none => l = []
  | some st =>
    st.count = l.length ∧
    st.avg = l.sum / (l.length : ℚ) ∧
    st.min ∈ l ∧ st.max ∈ l ∧
    (∀ x ∈ l, st.min ≤ x ∧ x ≤ st.max) ∧
    st.min ≤ st.avg ∧ st.avg ≤ st.max

lemma calc_stats_correct (l : List ℚ) : specChannelStats l (calc_stats l) := by
  match l with
  | [] => exact rfl
  | v :: vs =>
    have hlen : (0 : ℚ) < ((v :: vs).length : ℚ) := by
      exact_mod_cast Nat.succ_pos vs.length
    have havg : ((v :: vs).foldl (· + ·) 0) / ((v :: vs).length : ℚ)
        = (v :: vs).sum / ((v :: vs).length : ℚ) := by
      rw [foldl_add_eq_sum, zero_add]
    have hminmem : (v :: vs).foldl Min.min v ∈ v :: vs := by
      rcases foldl_min_eq_init_or_mem (v :: vs) v with h | h
      · rw [h]; exact List.mem_cons_self v vs
      · exact h
    have hmaxmem : (v :: vs).foldl Max.max v ∈ v :: vs := by
      rcases foldl_max_eq_init_or_mem (v :: vs) v with h | h
      · rw [h]; exact List.mem_cons_self v vs
      · exact h
    have hminle : ∀ x ∈ v :: vs, (v :: vs).foldl Min.min v ≤ x :=
      fun x hx => foldl_min_le_of_mem (v :: vs) v x hx
    have hmaxge : ∀ x ∈ v :: vs, x ≤ (v :: vs).foldl Max.max v :=
      fun x hx => mem_le_foldl_max (v :: vs) v x hx
    have hminavg : (v :: vs).foldl Min.min v ≤ (v :: vs).sum / ((v :: vs).length : ℚ) := by
      rw [le_div_iff₀ hlen, mul_comm]
      have := List.card_nsmul_le_sum (v :: vs) ((v :: vs).foldl Min.min v) hminle
      rwa [nsmul_eq_mul] at this
    have hmaxavg : (v :: vs).sum / ((v :: vs).length : ℚ) ≤ (v :: vs).foldl Max.max v := by
      rw [div_le_iff₀ hlen, mul_comm]
      have := List.sum_le_card_nsmul (v :: vs) ((v :: vs).foldl Max.max v) hmaxge
      rwa [nsmul_eq_mul] at this
    refine ⟨rfl, havg, hminmem, hmaxmem, fun x hx => ⟨hminle x hx, hmaxge x hx⟩, ?_, ?_⟩
    · rw [havg]; exact hminavg
    · rw [havg]; exact hmaxavg

lemma isEmpty_false_of_ne_nil {α : Type _} (l : List α) (h : l ≠ []) :
    l.isEmpty = false := by
  cases l with
  | nil => exact absurd rfl h
  | cons a t => rfl

lemma eq_nil_of_isEmpty_true {α : Type _} (l : List α) (h : l.isEmpty = true) :
    l = [] := by
  cases l with
  | nil => rfl
  | cons a t => exact absurd h (by simp)

/-! ### Claims -/

/-- Claim C1, counterexample: invoking the metrics callback with both the
pulse and breathing channels empty (here on the fresh server state, at
timestamp 0) does store a sample, and the stored sample has neither
`heart_rate_bpm` nor `breathing_rate_bpm`; this refutes both halves of the
claimed invariant. -/
theorem C1_counterexample :
    (onCoreMetricsOutput initialState [] [] 0).all_vitals_readings =
      [{ timestamp_ms := 0, source := "presage_sdk",
         heart_rate_bpm := none, breathing_rate_bpm := none }] := rfl

/-- Claim C1, amended: the metrics callback stores exactly one sample on
every invocation, unconditionally; the sample's rate fields equal the
Option-valued last element of the corresponding channel (so each rate field
is present exactly when its channel is non-empty, and a callback with both
channels empty still stores a sample carrying neither rate field). -/
theorem C1_amended_callback_stores_unconditionally (st : ServerState)
    (pulse breathing : List ℚ) (ts : Int) :
    (onCoreMetricsOutput st pulse breathing ts).all_vitals_readings =
      st.all_vitals_readings ++ [metricsCallbackSample pulse breathing ts] ∧
    (metricsCallbackSample pulse breathing ts).heart_rate_bpm = pulse.getLast? ∧
    (metricsCallbackSample pulse breathing ts).breathing_rate_bpm = breathing.getLast? ∧
    ((metricsCallbackSample pulse breathing ts).heart_rate_bpm = none ↔ pulse = []) ∧
    ((metricsCallbackSample pulse breathing ts).breathing_rate_bpm = none ↔ breathing = []) := by
  refine ⟨rfl, rfl, rfl, ?_, ?_⟩ <;>
    simp [metricsCallbackSample, List.getLast?_eq_none_iff]

/-- Claim C2, counterexample: on the empty sample sequence the aggregate is
the bare empty JSON object — it is not an object carrying `readings_count`,
`all_readings` and per-channel fields, as the claim quantified over every
sample sequence would require. -/
theorem C2_counterexample :
    calculate_vitals_summary [] = none ∧
    ¬ ∃ s : VitalsSummary, calculate_vitals_summary [] = some s := by
  constructor
  · rfl
  · rintro ⟨s, hs⟩
    exact Option.noConfusion hs

/-- Claim C2, amended: for every non-empty sample sequence the aggregate
carries `readings_count` equal to the number of stored samples, echoes the
sample list verbatim in `all_readings`, and for each rate channel satisfies
the per-channel specification: the empty object exactly when the channel has
no present values, and otherwise count = number of present values,
avg = sum/count, min and max attained bounds of the present values, and
min ≤ avg ≤ max. (For the empty sequence the aggregate is the bare empty
object.) -/
theorem C2_aggregate_correct (readings : List Sample) (h : readings ≠ []) :
    ∃ s, calculate_vitals_summary readings = some s ∧
      s.readings_count = readings.length ∧
      s.all_readings = readings ∧
      specChannelStats (heartRates readings) s.heart_rate ∧
      specChannelStats (breathingRates readings) s.breathing_rate := by
  obtain ⟨a, t, rfl⟩ := List.exists_cons_of_ne_nil h
  exact ⟨_, rfl, rfl, rfl, calc_stats_correct _, calc_stats_correct _⟩

/-- Claim C2, witness: the amended aggregate theorem applied to a concrete
two-sample session. -/
theorem C2_aggregate_correct_witness :
    ([⟨0, "presage_sdk", some 72, none⟩,
      ⟨1, "presage_sdk", some 76, some 15⟩] : List Sample) ≠ [] ∧
    ∃ s, calculate_vitals_summary
        [⟨0, "presage_sdk", some 72, none⟩, ⟨1, "presage_sdk", some 76, some 15⟩]
        = some s ∧
      s.readings_count =
        ([⟨0, "presage_sdk", some 72, none⟩,
          ⟨1, "presage_sdk", some 76, some 15⟩] : List Sample).length ∧
      s.all_readings =
        [⟨0, "presage_sdk", some 72, none⟩, ⟨1, "presage_sdk", some 76, some 15⟩] ∧
      specChannelStats
        (heartRates [⟨0, "presage_sdk", some 72, none⟩, ⟨1, "presage_sdk", some 76, some 15⟩])
        s.heart_rate ∧
      specChannelStats
        (breathingRates [⟨0, "presage_sdk", some 72, none⟩, ⟨1, "presage_sdk", some 76, some 15⟩])
        s.breathing_rate :=
  ⟨List.cons_ne_nil _ _, C2_aggregate_correct _ (List.cons_ne_nil _ _)⟩

/-- Claim C3: a `POST /process-video` request with an empty body, issued while
no run is in progress, is answered 400 with a body carrying both the `error`
and the `hint` field, and the handler returns the server state unchanged
(samples, video path and the Idle status included). -/
theorem C3_empty_body_bad_request (st : ServerState) (now : Int)
    (writeOk cameraPresent engineOk : Bool) (events : List CbEvent)
    (h : st.camera_running = false) :
    process_video st "" now writeOk cameraPresent engineOk events =
      (⟨400, [("error", .jstr "No video file provided"),
              ("hint", .jstr "Send video file as raw binary data in POST body, or use multipart/form-data")]⟩,
       st) := by
  have he : "".isEmpty = true := rfl
  simp [process_video, h, he]

/-- Claim C3, witness: the empty-body theorem applied to the fresh idle state. -/
theorem C3_empty_body_bad_request_witness :
    initialState.camera_running = false ∧
    process_video initialState "" 0 true true true [] =
      (⟨400, [("error", .jstr "No video file provided"),
              ("hint", .jstr "Send video file as raw binary data in POST body, or use multipart/form-data")]⟩,
       initialState) :=
  ⟨rfl, C3_empty_body_bad_request initialState 0 true true true [] rfl⟩

/-- Claim C4: while a session is Running (`camera_running` true), each of
`POST /process-video`, `POST /upload` and `GET /test` answers 409 with a body
carrying an `error` field and returns the server state unchanged. -/
theorem C4_busy_conflict (st : ServerState) (body : String) (now : Int)
    (writeOk cameraPresent engineOk : Bool) (events : List CbEvent)
    (h : st.camera_running = true) :
    process_video st body now writeOk cameraPresent engineOk events =
      (⟨409, [("error", .jstr "Processing already in progress. Wait for current processing to complete.")]⟩,
       st) ∧
    upload st body now writeOk =
      (⟨409, [("error", .jstr "Processing already running. Wait for it to complete.")]⟩,
       st) ∧
    test_handler st =
      (⟨409, [("error", .jstr "Processing already running")]⟩, st) := by
  refine ⟨?_, ?_, ?_⟩ <;> simp [process_video, upload, test_handler, h]

/-- Claim C4, witness: the busy theorem applied to a concrete Running state. -/
theorem C4_busy_conflict_witness :
    ({ camera_running := true, all_vitals_readings := [], latest_vitals := none,
       video_file_path := "" } : ServerState).camera_running = true ∧
    (process_video
        { camera_running := true, all_vitals_readings := [], latest_vitals := none,
          video_file_path := "" } "" 0 true true true [] =
      (⟨409, [("error", .jstr "Processing already in progress. Wait for current processing to complete.")]⟩,
       { camera_running := true, all_vitals_readings := [], latest_vitals := none,
         video_file_path := "" }) ∧
    upload
        { camera_running := true, all_vitals_readings := [], latest_vitals := none,
          video_file_path := "" } "" 0 true =
      (⟨409, [("error", .jstr "Processing already running. Wait for it to complete.")]⟩,
       { camera_running := true, all_vitals_readings := [], latest_vitals := none,
         video_file_path := "" }) ∧
    test_handler
        { camera_running := true, all_vitals_readings := [], latest_vitals := none,
          video_file_path := "" } =
      (⟨409, [("error", .jstr "Processing already running")]⟩,
       { camera_running := true, all_vitals_readings := [], latest_vitals := none,
         video_file_path := "" })) :=
  ⟨rfl, C4_busy_conflict _ "" 0 true true true [] rfl⟩

lemma run_camera_test_nil_events (st : ServerState) (cameraPresent engineOk : Bool) :
    (run_camera_test st cameraPresent engineOk []).all_vitals_readings = [] := by
  unfold run_camera_test run_camera_test_running run_camera_test_cleared
  dsimp only
  split
  · rfl
  · split <;> rfl

lemma summary_of_nil_events (st : ServerState) (cameraPresent engineOk : Bool) :
    calculate_vitals_summary
      ((run_camera_test st cameraPresent engineOk []).all_vitals_readings) = none := by
  rw [run_camera_test_nil_events]
  rfl

/-- Claim C5: a `POST /process-video` request (not busy, non-empty body, file
saved) whose run completes with zero stored samples is answered 500 with
`success = false`, `error = "No vitals data extracted from video"`, and a
`video_file` field naming the saved file. -/
theorem C5_zero_sample_run (st : ServerState) (body : String) (now : Int)
    (cameraPresent engineOk : Bool)
    (h : st.camera_running = false) (hbody : body.isEmpty = false) :
    (process_video st body now true cameraPresent engineOk []).1 =
      ⟨500, [("success", .jbool false),
             ("error", .jstr "No vitals data extracted from video"),
             ("message", .jstr "Presage SDK did not return any vital sign readings. Check video quality and ensure face is visible."),
             ("video_file", .jstr (uploadFilename now))]⟩ := by
  simp only [process_video, h, hbody, Bool.false_eq_true, if_false, not_true,
    Bool.not_eq_true, ite_false, not_false_eq_true, ite_true]
  rw [summary_of_nil_events]

/-- Claim C5, witness: the zero-sample theorem applied to a concrete request
on the fresh idle state with body `"x"`. -/
theorem C5_zero_sample_run_witness :
    initialState.camera_running = false ∧ "x".isEmpty = false ∧
    (process_video initialState "x" 0 true true true []).1 =
      ⟨500, [("success", .jbool false),
             ("error", .jstr "No vitals data extracted from video"),
             ("message", .jstr "Presage SDK did not return any vital sign readings. Check video quality and ensure face is visible."),
             ("video_file", .jstr (uploadFilename 0))]⟩ :=
  ⟨rfl, rfl, C5_zero_sample_run initialState "x" 0 true true rfl rfl⟩

/-- Claim C6: starting a session clears the stored sample list — at the
Running transition inside `run_camera_test` (after the clear, before the
engine container exists, hence before any callback can fire) the sample list
is empty and the Running flag is set; the clear itself also precedes the
camera check. -/
theorem C6_reset_on_start (st : ServerState) :
    (run_camera_test_running st).all_vitals_readings = [] ∧
    (run_camera_test_running st).camera_running = true ∧
    (run_camera_test_cleared st).all_vitals_readings = [] :=
  ⟨rfl, rfl, rfl⟩

/-- Claim C7: whenever a rate channel is non-empty at callback time (its
Option-valued last element is `some x`), the rate recorded in the sample is
exactly that most recent value `x` — not an average of the channel's
entries. -/
theorem C7_most_recent_value (pulse breathing : List ℚ) (ts : Int) :
    (∀ x : ℚ, pulse.getLast? = some x →
      (metricsCallbackSample pulse breathing ts).heart_rate_bpm = some x) ∧
    (∀ y : ℚ, breathing.getLast? = some y →
      (metricsCallbackSample pulse breathing ts).breathing_rate_bpm = some y) :=
  ⟨fun x hx => by simp [metricsCallbackSample, hx],
   fun y hy => by simp [metricsCallbackSample, hy]⟩

/-- Claim C7, witness: with pulse channel `[72, 75]` and breathing channel
`[15]`, the recorded rates are the last values 75 and 15. -/
theorem C7_most_recent_value_witness :
    (metricsCallbackSample [72, 75] [15] 1).heart_rate_bpm = some 75 ∧
    (metricsCallbackSample [72, 75] [15] 1).breathing_rate_bpm = some 15 :=
  ⟨(C7_most_recent_value [72, 75] [15] 1).1 75 rfl,
   (C7_most_recent_value [72, 75] [15] 1).2 15 rfl⟩

/-- Claim C8: the CLI callback emits the
`Vitals - Pulse: <x> BPM, Breathing: <y> BPM` line if and only if both the
pulse and the breathing channel are non-empty in that callback, and the
emitted values are the last pulse value and the last breathing value. -/
theorem C8_cli_vitals_line (pulse breathing : List ℚ) (x y : ℚ) :
    helloVitalsLine pulse breathing = some (x, y) ↔
      (pulse ≠ [] ∧ breathing ≠ [] ∧
       x = pulse.getLast! ∧ y = breathing.getLast!) := by
  unfold helloVitalsLine
  split_ifs with hcond
  · have hp : pulse ≠ [] := fun hnil => hcond.1 (by rw [hnil]; rfl)
    have hb : breathing ≠ [] := fun hnil => hcond.2 (by rw [hnil]; rfl)
    constructor
    · intro he
      have hpair := Option.some.inj he
      exact ⟨hp, hb, (congrArg Prod.fst hpair).symm, (congrArg Prod.snd hpair).symm⟩
    · rintro ⟨-, -, rfl, rfl⟩
      rfl
  · constructor
    · intro he
      cases he
    · rintro ⟨hp, hb, -, -⟩
      exact absurd
        ⟨fun habs => hp (eq_nil_of_isEmpty_true pulse habs),
         fun habs => hb (eq_nil_of_isEmpty_true breathing habs)⟩
        hcond

/-- Claim C9: an interleaving in which both start requests execute the
`camera_running.load()` busy check before either reaches the
`camera_running = true` write inside `run_camera_test`: both requests pass
the check and both enter Running, and neither is answered 409.  This refutes
the claimed guarantee that for every interleaving exactly one request enters
Running and the other receives 409. -/
theorem C9_race_both_enter_running :
    (runSched initTwoRequests [true, false, true, false]).a = Phase.running ∧
    (runSched initTwoRequests [true, false, true, false]).b = Phase.running ∧
    (runSched initTwoRequests [true, false, true, false]).a ≠ Phase.rejected ∧
    (runSched initTwoRequests [true, false, true, false]).b ≠ Phase.rejected := by
  decide

/-- Claim C10: starting a new session (SDK build) clears only the sample
list; the latest-sample slot is untouched, so immediately after the Running
transition and before the first callback of the new run, `GET /live` still
answers with the final sample of the previous session rather than the
no-data placeholder. -/
theorem C10_latest_slot_survives_start (st : ServerState) (s : Sample)
    (h : st.latest_vitals = some s) :
    (run_camera_test_running st).latest_vitals = some s ∧
    (run_camera_test_running st).all_vitals_readings = [] ∧
    live_handler (run_camera_test_running st) = ⟨200, sampleJson s⟩ := by
  refine ⟨h, rfl, ?_⟩
  simp [live_handler, run_camera_test_running, run_camera_test_cleared, h]

/-- Claim C10, witness: the latest-slot theorem applied to a state whose
latest slot holds the previous session's final sample. -/
theorem C10_latest_slot_survives_start_witness :
    ({ camera_running := false, all_vitals_readings := [],
       latest_vitals := some ⟨9, "presage_sdk", some 70, some 16⟩,
       video_file_path := "" } : ServerState).latest_vitals
      = some ⟨9, "presage_sdk", some 70, some 16⟩ ∧
    ((run_camera_test_running
        { camera_running := false, all_vitals_readings := [],
          latest_vitals := some ⟨9, "presage_sdk", some 70, some 16⟩,
          video_file_path := "" }).latest_vitals
      = some ⟨9, "presage_sdk", some 70, some 16⟩ ∧
    (run_camera_test_running
        { camera_running := false, all_vitals_readings := [],
          latest_vitals := some ⟨9, "presage_sdk", some 70, some 16⟩,
          video_file_path := "" }).all_vitals_readings = [] ∧
    live_handler
        (run_camera_test_running
          { camera_running := false, all_vitals_readings := [],
            latest_vitals := some ⟨9, "presage_sdk", some 70, some 16⟩,
            video_file_path := "" })
      = ⟨200, sampleJson ⟨9, "presage_sdk", some 70, some 16⟩⟩) :=
  ⟨rfl, C10_latest_slot_survives_start _ _ rfl⟩

end PresageEngine
